import Mathlib

/-
Verification of the HPS3D-160 distance service (hps3d-distance-cli/src/main.c).

The definitions below are a shallow embedding of the data model of the service and
operations: the per-point 5x5 window accumulation of measure_points, the
capture-retry state machine, the per-point measurement update, the MQTT and
HTTP control handlers, the pointcloud servicing of the output loop, the
writer/reader interleaving over the shared measurement state, and the
config-file parsing of the use_threading key.

Raw distances are uint16 values; sums of at most 25 such values and the
min/max comparisons are exact in the C float arithmetic, so Nat models them
faithfully.  The average (a float division) is modelled in Rat; no theorem
depends on its rounded value.
-/

/-- Sentinel raw-distance codes of the HPS3D SDK, as fixed by the mock header of
the repository itself (tests/test_lidar_mock.c lines 27-30). -/
def HPS3D_LOW_AMPLITUDE : Nat := 65001

/-- Sentinel: saturation. -/
def HPS3D_SATURATION : Nat := 65002

/-- Sentinel: ADC overflow. -/
def HPS3D_ADC_OVERFLOW : Nat := 65003

/-- Sentinel: invalid data. -/
def HPS3D_INVALID_DATA : Nat := 65004

/-- AREA_SIZE from main.c: the measurement window is 5x5 pixels. -/
def AREA_SIZE : Nat := 5

/-- AREA_OFFSET from main.c: (5-1)/2, the half width of the window. -/
def AREA_OFFSET : Nat := 2

/-- The validity test applied to one raw pixel in measure_points
(main.c lines 515-519): strictly positive, strictly below 65000 and distinct
from each of the four sentinel codes. -/
def pixelValid (d : Nat) : Bool :=
  decide (0 < d) && decide (d < 65000) &&
  decide (d ≠ HPS3D_LOW_AMPLITUDE) && decide (d ≠ HPS3D_SATURATION) &&
  decide (d ≠ HPS3D_ADC_OVERFLOW) && decide (d ≠ HPS3D_INVALID_DATA)

/-- Accumulator state of the window loop in measure_points (lines 495-498):
sum_distance and valid_count start at 0, min_distance at 65000,
max_distance at 0. -/
structure Accum where
  sum_distance : Nat
  valid_count : Nat
  min_distance : Nat
  max_distance : Nat

/-- Initial accumulator of measure_points (sum 0, count 0, min 65000, max 0). -/
def initAccum : Accum :=
  { sum_distance := 0, valid_count := 0, min_distance := 65000, max_distance := 0 }

/-- One iteration of the window loop body (main.c lines 511-526): a valid
pixel is added to the sum, counted, and folded into min and max; any other
pixel leaves the accumulator untouched. -/
def accumPixel (a : Accum) (d : Nat) : Accum :=
  if pixelValid d then
    { sum_distance := a.sum_distance + d
      valid_count := a.valid_count + 1
      min_distance := if d < a.min_distance then d else a.min_distance
      max_distance := if d > a.max_distance then d else a.max_distance }
  else a

/-- Folding the window loop body over a list of raw pixel values. -/
def accumWindow (pixels : List Nat) : Accum :=
  pixels.foldl accumPixel initAccum

/-- The 25 pixel indices of the 5x5 window centred at (cx, cy), row by row,
pixel_index = y * 160 + x as in main.c line 509.  Configuration validation
keeps cx in [2,157] and cy in [2,57], so the Nat subtractions are exact. -/
def windowIndices (cx cy : Nat) : List Nat :=
  (List.range AREA_SIZE).flatMap (fun dy =>
    (List.range AREA_SIZE).map (fun dx =>
      (cy + dy - AREA_OFFSET) * 160 + (cx + dx - AREA_OFFSET)))

/-- The window accumulation of measure_points for one configured point:
read every pixel of the 5x5 window from the frame and fold the loop body. -/
def measureWindow (frame : Nat → Nat) (cx cy : Nat) : Accum :=
  ((windowIndices cx cy).map frame).foldl accumPixel initAccum

theorem accum_foldl_filter (l : List Nat) :
    ∀ a : Accum, l.foldl accumPixel a = (l.filter pixelValid).foldl accumPixel a := by
  induction l with
  | nil => intro a; rfl
  | cons d t ih =>
    intro a
    by_cases h : pixelValid d = true
    · rw [List.filter_cons_of_pos h]
      simp only [List.foldl_cons, ih]
    · rw [List.filter_cons_of_neg (by simpa using h)]
      have hd : accumPixel a d = a := by
        simp [accumPixel, h]
      simp only [List.foldl_cons, hd, ih]

theorem accum_foldl_count (l : List Nat) :
    ∀ a : Accum,
      (l.foldl accumPixel a).valid_count
        = a.valid_count + (l.filter pixelValid).length := by
  induction l with
  | nil => intro a; simp
  | cons d t ih =>
    intro a
    by_cases h : pixelValid d = true
    · rw [List.filter_cons_of_pos h]
      simp only [List.foldl_cons, ih, accumPixel, h, if_true, List.length_cons]
      omega
    · rw [List.filter_cons_of_neg (by simpa using h)]
      have hd : accumPixel a d = a := by simp [accumPixel, h]
      simp only [List.foldl_cons, hd, ih]

theorem accum_foldl_sum (l : List Nat) :
    ∀ a : Accum,
      (l.foldl accumPixel a).sum_distance
        = a.sum_distance + (l.filter pixelValid).sum := by
  induction l with
  | nil => intro a; simp
  | cons d t ih =>
    intro a
    by_cases h : pixelValid d = true
    · rw [List.filter_cons_of_pos h]
      simp only [List.foldl_cons, ih, accumPixel, h, if_true, List.sum_cons]
      omega
    · rw [List.filter_cons_of_neg (by simpa using h)]
      have hd : accumPixel a d = a := by simp [accumPixel, h]
      simp only [List.foldl_cons, hd, ih]

/-- C1: in the 5x5 window accumulation of measure_points, a pixel
contributes to the distance sum, min, max and valid-pixel count exactly when
its raw value is strictly greater than 0, strictly less than 65000 and not
equal to any of the four sentinel codes; a pixel failing the test (in
particular one equal to a sentinel code) is excluded from all four
aggregates, and the whole window accumulation equals the accumulation over
only the valid pixels. -/
theorem C1_pixel_validity (a : Accum) (d : Nat) (frame : Nat → Nat) (cx cy : Nat) :
    (pixelValid d = true ↔
      (0 < d ∧ d < 65000 ∧ d ≠ HPS3D_LOW_AMPLITUDE ∧ d ≠ HPS3D_SATURATION ∧
        d ≠ HPS3D_ADC_OVERFLOW ∧ d ≠ HPS3D_INVALID_DATA))
    ∧ (pixelValid d = false → accumPixel a d = a)
    ∧ (pixelValid d = true →
        accumPixel a d =
          { sum_distance := a.sum_distance + d
            valid_count := a.valid_count + 1
            min_distance := if d < a.min_distance then d else a.min_distance
            max_distance := if d > a.max_distance then d else a.max_distance })
    ∧ measureWindow frame cx cy
        = accumWindow (((windowIndices cx cy).map frame).filter pixelValid)
    ∧ (measureWindow frame cx cy).valid_count
        = (((windowIndices cx cy).map frame).filter pixelValid).length
    ∧ (measureWindow frame cx cy).sum_distance
        = (((windowIndices cx cy).map frame).filter pixelValid).sum := by
  refine ⟨?_, ?_, ?_, ?_, ?_, ?_⟩
  · simp [pixelValid, and_assoc]
  · intro h; simp [accumPixel, h]
  · intro h; simp [accumPixel, h]
  · rw [measureWindow, accum_foldl_filter]; rfl
  · rw [measureWindow, accum_foldl_count]; simp [initAccum]
  · rw [measureWindow, accum_foldl_sum]; simp [initAccum]

/-- Witness for C1 at concrete inputs: the saturation sentinel 65002 leaves
the accumulator unchanged, and a window holding raw values
[1000, 65001, 0, 500, ...] counts exactly its two valid pixels. -/
theorem C1_pixel_validity_witness :
    accumPixel initAccum 65002 = initAccum ∧
    (measureWindow
        (fun i => if i = 0 then 1000 else if i = 1 then 65001 else
          if i = 2 then 0 else if i = 3 then 500 else 65004) 2 2).valid_count
      = 2 := by
  have h := C1_pixel_validity initAccum 65002
    (fun i => if i = 0 then 1000 else if i = 1 then 65001 else
      if i = 2 then 0 else if i = 3 then 500 else 65004) 2 2
  refine ⟨h.2.1 (by decide), ?_⟩
  rw [h.2.2.2.2.1]
  decide

/-- MAX_RETRIES of measure_points (main.c line 443). -/
def MAX_RETRIES : Nat := 3

/-- One capture attempt either succeeds or fails. -/
inductive CaptureOutcome where
  | ok : CaptureOutcome
  | fail : CaptureOutcome

/-- The connection-relevant state of measure_points: the static retry_count
and the device handle g_handle (-1 means disconnected). -/
structure LinkState where
  retry_count : Nat
  g_handle : Int

/-- The capture-retry logic of measure_points (main.c lines 461-485): a
successful capture resets retry_count to 0; a failed capture increments it,
and when the incremented counter reaches MAX_RETRIES the device is closed,
g_handle is set to -1 and the counter is reset. -/
def captureStep (s : LinkState) (o : CaptureOutcome) : LinkState :=
  match o with
  | .ok => { s with retry_count := 0 }
  | .fail =>
      if s.retry_count + 1 ≥ MAX_RETRIES then
        { retry_count := 0, g_handle := -1 }
      else
        { s with retry_count := s.retry_count + 1 }

/-- Folding a sequence of capture outcomes through the retry logic. -/
def runCaptures (s : LinkState) (outcomes : List CaptureOutcome) : LinkState :=
  outcomes.foldl captureStep s

/-- The reconnect test at the top of measure_points (main.c line 446):
a reconnect is attempted when reconnect_needed is set or g_handle is -1. -/
def reconnectCheck (reconnect_needed : Bool) (g_handle : Int) : Bool :=
  reconnect_needed || (g_handle == -1)

/-- C2: a successful capture resets the consecutive-failure counter to 0 and
leaves the handle untouched; from a freshly reset counter, fewer than 3
consecutive failures never change the handle (no teardown); the 3rd
consecutive failure closes the handle (sets it to -1) and resets the
counter, and the resulting state makes the reconnect check of the next cycle
fire, so a fresh connect is attempted. -/
theorem C2_capture_retry (s : LinkState) (n : Nat) :
    (captureStep s .ok = { retry_count := 0, g_handle := s.g_handle })
    ∧ (s.retry_count = 0 → n < 3 →
        (runCaptures s (List.replicate n .fail)).g_handle = s.g_handle)
    ∧ (s.retry_count = 0 →
        runCaptures s (List.replicate 3 .fail) = { retry_count := 0, g_handle := -1 })
    ∧ (s.retry_count = 0 →
        reconnectCheck false (runCaptures s (List.replicate 3 .fail)).g_handle = true) := by
  obtain ⟨rc, gh⟩ := s
  refine ⟨rfl, ?_, ?_, ?_⟩
  · intro h hn
    simp only at h
    subst h
    interval_cases n <;>
      simp [runCaptures, List.replicate, captureStep, MAX_RETRIES]
  · intro h
    simp only at h
    subst h
    simp [runCaptures, List.replicate, captureStep, MAX_RETRIES]
  · intro h
    simp only at h
    subst h
    simp [runCaptures, List.replicate, captureStep, MAX_RETRIES, reconnectCheck]

/-- Witness for C2 at a concrete state: with the counter fresh and handle 5,
two consecutive failures keep the handle, three tear it down. -/
theorem C2_capture_retry_witness :
    (runCaptures ⟨0, 5⟩ (List.replicate 2 .fail)).g_handle = (5 : Int)
    ∧ runCaptures ⟨0, 5⟩ (List.replicate 3 .fail) = ⟨0, -1⟩ := by
  have h := C2_capture_retry ⟨0, 5⟩ 2
  exact ⟨h.2.1 rfl (by decide), h.2.2.1 rfl⟩

/-- One configured measurement point (struct MeasurePoint, main.c lines
126-135).  The float distance fields are modelled in Rat; valid is the int
flag written as 1/0. -/
structure MeasurePoint where
  x : Nat
  y : Nat
  distance : Rat
  min_distance : Rat
  max_distance : Rat
  valid_pixels : Nat
  valid : Bool
  timestamp : Int
  name : String

/-- The first default point of main.c line 139: {40, 30, 0, 0, 0, 0, 0, 0,
"point_1"}. -/
def points0 : MeasurePoint :=
  { x := 40, y := 30, distance := 0, min_distance := 0, max_distance := 0
    valid_pixels := 0, valid := false, timestamp := 0, name := "point_1" }

/-- The per-point update of measure_points (main.c lines 549-566): when the
valid-pixel count reaches min_valid_pixels the average, min, max, count,
flag and timestamp are all written (the average as sum divided by count);
otherwise only the flag (to 0) and the count are written.  min_valid_pixels
comes from atoi on the config file, hence Int. -/
def updatePoint (min_valid_pixels : Int) (now : Int) (p : MeasurePoint) (a : Accum) :
    MeasurePoint :=
  if (a.valid_count : Int) ≥ min_valid_pixels then
    { p with
        distance := (a.sum_distance : Rat) / (a.valid_count : Rat)
        min_distance := (a.min_distance : Rat)
        max_distance := (a.max_distance : Rat)
        valid_pixels := a.valid_count
        valid := true
        timestamp := now }
  else
    { p with valid := false, valid_pixels := a.valid_count }

/-- The age_seconds field of create_json_output (main.c line 627):
time(NULL) minus the timestamp of the point. -/
def jsonAge (now : Int) (p : MeasurePoint) : Int :=
  now - p.timestamp

/-- C3: the validity flag of a point is set to true exactly when the
valid-pixel count is at least min_valid_pixels; in particular a count of
min_valid_pixels - 1 yields false and a count of exactly min_valid_pixels
yields true. -/
theorem C3_validity_threshold (mvp now : Int) (p : MeasurePoint) (a : Accum) :
    ((updatePoint mvp now p a).valid = true ↔ (a.valid_count : Int) ≥ mvp)
    ∧ ((a.valid_count : Int) = mvp - 1 → (updatePoint mvp now p a).valid = false)
    ∧ ((a.valid_count : Int) = mvp → (updatePoint mvp now p a).valid = true) := by
  unfold updatePoint
  refine ⟨?_, ?_, ?_⟩
  · constructor
    · intro h
      by_contra hc
      rw [if_neg hc] at h
      exact Bool.false_ne_true h
    · intro h
      rw [if_pos h]
  · intro h
    rw [if_neg (by omega)]
  · intro h
    rw [if_pos (by omega)]

/-- Witness for C3 at the default threshold 6: a window with 5 valid pixels
is invalid, one with 6 valid pixels is valid. -/
theorem C3_validity_threshold_witness :
    (updatePoint 6 0 points0 ⟨5000, 5, 900, 1100⟩).valid = false
    ∧ (updatePoint 6 0 points0 ⟨6000, 6, 900, 1100⟩).valid = true := by
  exact ⟨(C3_validity_threshold 6 0 points0 ⟨5000, 5, 900, 1100⟩).2.1 (by decide),
    (C3_validity_threshold 6 0 points0 ⟨6000, 6, 900, 1100⟩).2.2 (by decide)⟩

/-- C4 counterexample: load_config accepts min_valid_pixels=0 (atoi output
is stored unvalidated), and with that threshold a window holding no valid
pixel still takes the valid branch of the update: the flag goes to 1 and the
average is recomputed as sum/count with count = 0 (in the C source a float
division by zero), overwriting the previous average 5 instead of retaining
it.  This refutes the claim that the average is computed only when the
valid-pixel count is positive and that no division by zero is ever
performed. -/
theorem C4_divzero_counterexample :
    initAccum.valid_count = 0
    ∧ (updatePoint 0 0 { points0 with distance := 5 } initAccum).valid = true
    ∧ (updatePoint 0 0 { points0 with distance := 5 } initAccum).distance = 0 := by
  refine ⟨rfl, ?_, ?_⟩ <;> simp [updatePoint, initAccum]

/-- C4 (amended): whenever min_valid_pixels is at least 1 — which holds for
the default 6 — the valid branch implies a positive valid-pixel count, so
the average sum/count is computed only with a non-zero divisor; and on an
invalid update the average, min and max distance fields retain their
previous values. -/
theorem C4_division_guard (mvp now : Int) (p : MeasurePoint) (a : Accum)
    (h : 1 ≤ mvp) :
    ((a.valid_count : Int) ≥ mvp → 0 < a.valid_count)
    ∧ ((a.valid_count : Int) < mvp →
        (updatePoint mvp now p a).distance = p.distance
        ∧ (updatePoint mvp now p a).min_distance = p.min_distance
        ∧ (updatePoint mvp now p a).max_distance = p.max_distance) := by
  constructor
  · intro hge
    omega
  · intro hlt
    rw [updatePoint, if_neg (by omega)]
    exact ⟨rfl, rfl, rfl⟩

/-- Witness for the amended C4 at the default threshold 6: an update with 4
valid pixels keeps the previous average 7, and its count bound holds. -/
theorem C4_division_guard_witness :
    (updatePoint 6 0 { points0 with distance := 7 } ⟨4000, 4, 900, 1100⟩).distance = 7
    ∧ ((6 : Int) ≥ 6 → 0 < (6 : Nat)) := by
  have h := C4_division_guard 6 0 { points0 with distance := 7 } ⟨4000, 4, 900, 1100⟩
    (by decide)
  have h6 := C4_division_guard 6 0 points0 ⟨6000, 6, 900, 1100⟩ (by decide)
  exact ⟨(h.2 (by decide)).1, fun _ => h6.1 (by decide)⟩

/-- C10: an update below the validity threshold rewrites only the valid flag
and the valid-pixel count — the timestamp, the distance fields, the
coordinates and the name all keep their previous values — while an update at
or above the threshold stamps the current time; consequently age_seconds in
the output JSON is the time since the last valid measurement. -/
theorem C10_timestamp_last_valid (mvp now : Int) (p : MeasurePoint) (a : Accum) :
    ((a.valid_count : Int) < mvp →
      updatePoint mvp now p a = { p with valid := false, valid_pixels := a.valid_count })
    ∧ ((a.valid_count : Int) ≥ mvp → (updatePoint mvp now p a).timestamp = now)
    ∧ (∀ t : Int, jsonAge t (updatePoint mvp now p a)
        = if (a.valid_count : Int) ≥ mvp then t - now else t - p.timestamp) := by
  refine ⟨?_, ?_, ?_⟩
  · intro hlt
    rw [updatePoint, if_neg (by omega)]
  · intro hge
    rw [updatePoint, if_pos hge]
  · intro t
    by_cases hge : (a.valid_count : Int) ≥ mvp
    · rw [updatePoint, if_pos hge, if_pos hge]
      rfl
    · rw [updatePoint, if_neg hge, if_neg hge]
      rfl

/-- Witness for C10: an invalid update (3 valid pixels against threshold 6)
at time 50 leaves the timestamp 20, and the JSON age at time 60 is 40, the
time since the last valid measurement; a valid update stamps time 50. -/
theorem C10_timestamp_last_valid_witness :
    updatePoint 6 50 { points0 with timestamp := 20 } ⟨3000, 3, 900, 1100⟩
      = { points0 with timestamp := 20, valid := false, valid_pixels := 3 }
    ∧ jsonAge 60 (updatePoint 6 50 { points0 with timestamp := 20 } ⟨3000, 3, 900, 1100⟩)
      = 40
    ∧ (updatePoint 6 50 { points0 with timestamp := 20 } ⟨6000, 6, 900, 1100⟩).timestamp
      = 50 := by
  have h := C10_timestamp_last_valid 6 50 { points0 with timestamp := 20 }
    (⟨3000, 3, 900, 1100⟩ : Accum)
  have h6 := C10_timestamp_last_valid 6 50 { points0 with timestamp := 20 }
    (⟨6000, 6, 900, 1100⟩ : Accum)
  refine ⟨h.1 (by decide), ?_, h6.2.1 (by decide)⟩
  rw [h.2.2 60, if_neg (by decide)]
  rfl

/-- The MQTT control topic of main.c line 69. -/
def MQTT_CONTROL_TOPIC : String := "hps3d/control"

/-- The two control flags mutated by the control surfaces. -/
structure ControlFlags where
  measurement_active : Bool
  pointcloud_requested : Bool

/-- The effect of mqtt_message_callback (main.c lines 753-785) on the
control flags: on the control topic, payload "start" switches
measurement_active on (when it was off), payload "stop" switches it off
(when it was on); no other payload — and no other topic — changes any flag.
The source contains no branch for "get_pointcloud". -/
def mqtt_message_callback (topic payload : String) (f : ControlFlags) : ControlFlags :=
  if topic = MQTT_CONTROL_TOPIC then
    if payload = "start" then
      if f.measurement_active then f else { f with measurement_active := true }
    else if payload = "stop" then
      if f.measurement_active then { f with measurement_active := false } else f
    else f
  else f

/-- C5: evaluating the MQTT control callback at the failing input — a
message with payload "get_pointcloud" on the control topic — leaves
pointcloud_requested false: the handler that the spec and the MQTT test
of the repository itself (test_mqtt.c lines 64-73, "Process control commands like in
main.c") prescribe is missing from main.c, whose callback can never set
pointcloud_requested.  The "start", "stop" and unrecognized-payload cases do
behave as claimed. -/
theorem C5_get_pointcloud_missing :
    (mqtt_message_callback MQTT_CONTROL_TOPIC "get_pointcloud"
        { measurement_active := false, pointcloud_requested := false })
      = { measurement_active := false, pointcloud_requested := false }
    ∧ (∀ topic payload f, (mqtt_message_callback topic payload f).pointcloud_requested
        = f.pointcloud_requested)
    ∧ (∀ f, (mqtt_message_callback MQTT_CONTROL_TOPIC "start" f).measurement_active = true)
    ∧ (∀ f, (mqtt_message_callback MQTT_CONTROL_TOPIC "stop" f).measurement_active = false)
    ∧ (∀ f, mqtt_message_callback MQTT_CONTROL_TOPIC "get_pointcloud" f = f) := by
  refine ⟨rfl, ?_, ?_, ?_, ?_⟩
  · intro topic payload f
    unfold mqtt_message_callback
    split
    · split
      · split <;> rfl
      · split
        · split <;> rfl
        · rfl
    · rfl
  · intro f
    unfold mqtt_message_callback
    rw [if_pos rfl, if_pos rfl]
    split <;> simp_all
  · intro f
    unfold mqtt_message_callback
    rw [if_pos rfl, if_neg (by decide), if_pos rfl]
    split <;> simp_all
  · intro f
    unfold mqtt_message_callback
    rw [if_pos rfl, if_neg (by decide), if_neg (by decide)]

/-- The state read and written by the pointcloud-request block of
output_thread (main.c lines 724-745): the one-shot request flag, the
measurement-active flag consulted by measure_points, whether the depth
buffer g_measureData.full_depth_data.distance has been allocated (NULL
otherwise), and whether the MQTT link is up (mosq set and connected). -/
structure OutputState where
  pointcloud_requested : Bool
  measurement_active : Bool
  frame_allocated : Bool
  mqtt_connected : Bool

/-- An iteration of the pointcloud block either completes in a new state or
crashes. -/
inductive IterResult where
  | ok : OutputState → IterResult
  | crash : IterResult

/-- The pointcloud-request block of one output_thread iteration (main.c
lines 724-745).  measure_points returns 0 when measurement is inactive
(without touching the sensor) and otherwise reports the outcome of the
capture path, abstracted by captureOk.  On success, create_pointcloud_json
returns NULL when the depth buffer was never allocated (main.c lines
651-655), and output_thread then calls strlen on that NULL pointer when the
MQTT link is up (line 734) — a crash.  On every other path the flag is
cleared before the iteration ends. -/
def pointcloudService (s : OutputState) (captureOk : Bool) : IterResult :=
  if s.pointcloud_requested then
    if !s.measurement_active || captureOk then
      if s.mqtt_connected && !s.frame_allocated then .crash
      else .ok { s with pointcloud_requested := false }
    else .ok { s with pointcloud_requested := false }
  else .ok s

/-- C6 counterexample: with the request flag set while measurement is
inactive, the depth buffer never allocated and MQTT connected, the
iteration dereferences the NULL JSON buffer (strlen(cloud_json) at main.c
line 734, with create_pointcloud_json having returned NULL) — the loop
crashes and the flag is not cleared, refuting the unconditional no-crash
part of the claim. -/
theorem C6_nullcloud_counterexample :
    pointcloudService
        { pointcloud_requested := true, measurement_active := false,
          frame_allocated := false, mqtt_connected := true } true
      = IterResult.crash := by
  rfl

/-- C6 (amended): every iteration of the output loop that completes clears
pointcloud_requested — whether the forced capture or the publish succeeds or
fails, and in particular when the sensor is permanently disconnected — so a
request is serviced at most once and never retried; the only non-completing
case is publishing with MQTT up while the depth buffer was never allocated
(the NULL strlen above). -/
theorem C6_flag_cleared_on_completion (s : OutputState) (captureOk : Bool) :
    (∀ t, pointcloudService s captureOk = IterResult.ok t →
      t.pointcloud_requested = false)
    ∧ (pointcloudService s captureOk = IterResult.crash →
        s.pointcloud_requested = true ∧ s.mqtt_connected = true
          ∧ s.frame_allocated = false) := by
  obtain ⟨req, act, alloc, mq⟩ := s
  constructor
  · intro t ht
    cases req <;> cases act <;> cases alloc <;> cases mq <;> cases captureOk <;>
      simp [pointcloudService] at ht <;> simp [← ht]
  · intro hc
    cases req <;> cases act <;> cases alloc <;> cases mq <;> cases captureOk <;>
      simp [pointcloudService] at hc <;> simp

/-- Witness for the amended C6 in the very scenario of the spec: the request flag
is set, measurement is active and the sensor is permanently disconnected
(the capture path fails), yet the iteration completes and the flag is false
afterwards. -/
theorem C6_flag_cleared_witness :
    (pointcloudService
        { pointcloud_requested := true, measurement_active := true,
          frame_allocated := false, mqtt_connected := true } false
      = IterResult.ok
          { pointcloud_requested := false, measurement_active := true,
            frame_allocated := false, mqtt_connected := true })
    ∧ ({ pointcloud_requested := false, measurement_active := true,
          frame_allocated := false, mqtt_connected := true } :
            OutputState).pointcloud_requested = false := by
  refine ⟨rfl, ?_⟩
  exact (C6_flag_cleared_on_completion
      { pointcloud_requested := true, measurement_active := true,
        frame_allocated := false, mqtt_connected := true } false).1
    { pointcloud_requested := false, measurement_active := true,
      frame_allocated := false, mqtt_connected := true } rfl

/-- Program counter of the acquisition writer (one successful measure_points
cycle, main.c lines 461-589): capture into the shared g_measureData frame
(line 461, before the mutex), take data_mutex (line 488), recompute the
per-point measurements from the frame (lines 491-567), release the mutex
(line 589). -/
inductive WriterPc where
  | wCapture : WriterPc
  | wLock : WriterPc
  | wUpdate : WriterPc
  | wUnlock : WriterPc
  | wDone : WriterPc

/-- Program counter of a reader that takes one snapshot of frame and
measurements under data_mutex (the lock acquisitions of create_json_output
line 596 and create_pointcloud_json line 646, merged into a single
best-case critical section). -/
inductive ReaderPc where
  | rLock : ReaderPc
  | rRead : ReaderPc
  | rUnlock : ReaderPc
  | rDone : ReaderPc

/-- The shared measurement store with one writer and one reader thread.
frame_gen counts frame replacements of g_measureData; meas_gen records the
frame generation the per-point measurements were computed from; observed is
the snapshot taken by the reader. -/
structure StoreSys where
  frame_gen : Nat
  meas_gen : Nat
  writerHasLock : Bool
  readerHasLock : Bool
  wpc : WriterPc
  rpc : ReaderPc
  observed : Option (Nat × Nat)

/-- Interleaved execution of the writer cycle and the reader snapshot.
The capture step needs no lock: HPS3D_SingleCapture writes the shared frame
buffer at main.c line 461, before pthread_mutex_lock at line 488.  Lock and
unlock steps follow the pthread mutex discipline; the measurement update and
the snapshot read happen while holding the lock. -/
inductive StoreStep : StoreSys → StoreSys → Prop where
  | capture (s : StoreSys) (h : s.wpc = WriterPc.wCapture) :
      StoreStep s { s with frame_gen := s.frame_gen + 1, wpc := WriterPc.wLock }
  | wlock (s : StoreSys) (h : s.wpc = WriterPc.wLock)
      (hw : s.writerHasLock = false) (hr : s.readerHasLock = false) :
      StoreStep s { s with writerHasLock := true, wpc := WriterPc.wUpdate }
  | wupdate (s : StoreSys) (h : s.wpc = WriterPc.wUpdate)
      (hl : s.writerHasLock = true) :
      StoreStep s { s with meas_gen := s.frame_gen, wpc := WriterPc.wUnlock }
  | wunlock (s : StoreSys) (h : s.wpc = WriterPc.wUnlock) :
      StoreStep s { s with writerHasLock := false, wpc := WriterPc.wDone }
  | rlock (s : StoreSys) (h : s.rpc = ReaderPc.rLock)
      (hw : s.writerHasLock = false) (hr : s.readerHasLock = false) :
      StoreStep s { s with readerHasLock := true, rpc := ReaderPc.rRead }
  | rread (s : StoreSys) (h : s.rpc = ReaderPc.rRead)
      (hl : s.readerHasLock = true) :
      StoreStep s { s with observed := some (s.frame_gen, s.meas_gen)
                           rpc := ReaderPc.rUnlock }
  | runlock (s : StoreSys) (h : s.rpc = ReaderPc.rUnlock) :
      StoreStep s { s with readerHasLock := false, rpc := ReaderPc.rDone }

/-- Initial state: one complete cycle has populated the store, frame and
measurements agree (generation 1), the lock is free, the writer is about to
start its next cycle and the reader is about to snapshot. -/
def storeInit : StoreSys :=
  { frame_gen := 1, meas_gen := 1, writerHasLock := false, readerHasLock := false
    wpc := WriterPc.wCapture, rpc := ReaderPc.rLock, observed := none }

/-- C7: the snapshot is NOT atomic.  Because HPS3D_SingleCapture rewrites
the shared frame before the writer takes data_mutex, the interleaving
"writer captures frame 2; reader locks, snapshots, unlocks" is reachable,
and the reader observes frame generation 2 paired with measurements of
generation 1 — a frame paired with measurements computed from a different
frame, even though the reader held the single lock for the whole snapshot.
The claimed discipline (one lock guarding frame and measurements together)
is what the spec prescribes but not what the code does. -/
theorem C7_torn_snapshot :
    ∃ s : StoreSys, Relation.ReflTransGen StoreStep storeInit s
      ∧ s.observed = some (2, 1) ∧ (2 : Nat) ≠ 1 := by
  refine ⟨{ frame_gen := 2, meas_gen := 1, writerHasLock := false,
            readerHasLock := true, wpc := WriterPc.wLock, rpc := ReaderPc.rUnlock,
            observed := some (2, 1) }, ?_, rfl, by decide⟩
  have h1 := StoreStep.capture storeInit rfl
  have h2 := StoreStep.rlock
    { frame_gen := 2, meas_gen := 1, writerHasLock := false,
      readerHasLock := false, wpc := WriterPc.wLock, rpc := ReaderPc.rLock,
      observed := none } rfl rfl rfl
  have h3 := StoreStep.rread
    { frame_gen := 2, meas_gen := 1, writerHasLock := false,
      readerHasLock := true, wpc := WriterPc.wLock, rpc := ReaderPc.rRead,
      observed := none } rfl rfl
  exact Relation.ReflTransGen.head h1 (Relation.ReflTransGen.head h2
    (Relation.ReflTransGen.head h3 Relation.ReflTransGen.refl))

/-- Character-list version of "the first list starts the second"
(the anchored comparison underlying strncmp/strstr). -/
def leadsWith : List Char → List Char → Bool
  | [], _ => true
  | _ :: _, [] => false
  | a :: as, b :: bs => a == b && leadsWith as bs

/-- strstr containment: the pattern occurs somewhere in the text. -/
def occursIn (pat : List Char) : List Char → Bool
  | [] => leadsWith pat []
  | b :: bs => leadsWith pat (b :: bs) || occursIn pat bs

/-- strstr(buffer, pat) != NULL as used by the HTTP request parser. -/
def strstrFound (buffer pat : String) : Bool :=
  occursIn pat.data buffer.data

theorem leadsWith_of_append (p : List Char) :
    ∀ q l, leadsWith p q = true → leadsWith p (q ++ l) = true := by
  induction p with
  | nil => intro q l h; rfl
  | cons a as ih =>
    intro q l h
    cases q with
    | nil => exact absurd h (by simp [leadsWith])
    | cons b bs =>
      simp only [leadsWith, Bool.and_eq_true] at h
      simp only [List.cons_append, leadsWith, Bool.and_eq_true]
      exact ⟨h.1, ih bs l h.2⟩

theorem occursIn_of_leadsWith (p q : List Char) (h : leadsWith p q = true) :
    occursIn p q = true := by
  cases q with
  | nil => exact h
  | cons b bs => simp [occursIn, h]

/-- The response dispatch of http_server_thread (main.c lines 931-953):
strstr checks in the order GET /status, POST /start, POST /stop; the status
body reports measurement_active and HPS3D_IsConnect(g_handle); /start and
/stop write measurement_active; everything else gets the error body. -/
structure HttpResult where
  measurement_active : Bool
  body : String

/-- The body computed by http_server_thread for one request buffer, given
the current measurement_active flag and the connection status. -/
def http_handle (buffer : String) (measurement_active connected : Bool) : HttpResult :=
  if strstrFound buffer "GET /status" then
    { measurement_active := measurement_active
      body := "\x7b\"active\": " ++ (if measurement_active then "true" else "false")
        ++ ", \"connected\": " ++ (if connected then "true" else "false") ++ "\x7d" }
  else if strstrFound buffer "POST /start" then
    { measurement_active := true, body := "\x7b\"status\": \"started\"\x7d" }
  else if strstrFound buffer "POST /stop" then
    { measurement_active := false, body := "\x7b\"status\": \"stopped\"\x7d" }
  else
    { measurement_active := measurement_active
      body := "\x7b\"error\": \"unknown command\"\x7d" }

/-- The HTTP_RESPONSE format string of main.c line 63: every reply is
formatted with the fixed status line HTTP/1.1 200 OK. -/
def HTTP_RESPONSE (body : String) : String :=
  "HTTP/1.1 200 OK\r\nContent-Length: " ++ toString body.length
    ++ "\r\nContent-Type: application/json\r\n\r\n" ++ body

/-- C8: a request recognized as GET /status gets the active/connected JSON
and changes no flag; POST /start (when not matching the earlier status
check) sets measurement_active and answers started; POST /stop clears it
and answers stopped; a request matching none of the three patterns leaves
the flag unchanged and gets the unknown-command error JSON; and every reply
whatsoever is formatted with status line HTTP/1.1 200 OK. -/
theorem C8_http_dispatch (buffer : String) (active connected : Bool) :
    (strstrFound buffer "GET /status" = true →
      http_handle buffer active connected =
        { measurement_active := active
          body := "\x7b\"active\": " ++ (if active then "true" else "false")
            ++ ", \"connected\": " ++ (if connected then "true" else "false") ++ "\x7d" })
    ∧ (strstrFound buffer "GET /status" = false →
        strstrFound buffer "POST /start" = true →
        http_handle buffer active connected =
          { measurement_active := true, body := "\x7b\"status\": \"started\"\x7d" })
    ∧ (strstrFound buffer "GET /status" = false →
        strstrFound buffer "POST /start" = false →
        strstrFound buffer "POST /stop" = true →
        http_handle buffer active connected =
          { measurement_active := false, body := "\x7b\"status\": \"stopped\"\x7d" })
    ∧ (strstrFound buffer "GET /status" = false →
        strstrFound buffer "POST /start" = false →
        strstrFound buffer "POST /stop" = false →
        http_handle buffer active connected =
          { measurement_active := active
            body := "\x7b\"error\": \"unknown command\"\x7d" })
    ∧ (∀ body : String,
        leadsWith ("HTTP/1.1 200 OK".data) ((HTTP_RESPONSE body).data) = true) := by
  refine ⟨?_, ?_, ?_, ?_, ?_⟩
  · intro h1
    rw [http_handle, if_pos h1]
  · intro h1 h2
    rw [http_handle, if_neg (by simp [h1]), if_pos h2]
  · intro h1 h2 h3
    rw [http_handle, if_neg (by simp [h1]), if_neg (by simp [h2]), if_pos h3]
  · intro h1 h2 h3
    rw [http_handle, if_neg (by simp [h1]), if_neg (by simp [h2]), if_neg (by simp [h3])]
  · intro body
    have h0 : leadsWith "HTTP/1.1 200 OK".data
        "HTTP/1.1 200 OK\r\nContent-Length: ".data = true := by decide
    have h1 := leadsWith_of_append "HTTP/1.1 200 OK".data
      "HTTP/1.1 200 OK\r\nContent-Length: ".data
      ((toString body.length).data
        ++ ("\r\nContent-Type: application/json\r\n\r\n".data ++ body.data)) h0
    have h2 : (HTTP_RESPONSE body).data
        = "HTTP/1.1 200 OK\r\nContent-Length: ".data
          ++ ((toString body.length).data
            ++ ("\r\nContent-Type: application/json\r\n\r\n".data ++ body.data)) := by
      simp [HTTP_RESPONSE, String.data_append]
    rw [h2]
    exact h1

/-- Witness for C8 on canonical request lines: /start flips the flag on,
/stop flips it off, /status reports without flipping, and an unknown
request gets the error body. -/
theorem C8_http_dispatch_witness :
    http_handle "POST /start HTTP/1.1\r\n\r\n" false true
      = { measurement_active := true, body := "\x7b\"status\": \"started\"\x7d" }
    ∧ http_handle "POST /stop HTTP/1.1\r\n\r\n" true true
      = { measurement_active := false, body := "\x7b\"status\": \"stopped\"\x7d" }
    ∧ http_handle "GET /status HTTP/1.1\r\n\r\n" true false
      = { measurement_active := true
          body := "\x7b\"active\": true, \"connected\": false\x7d" }
    ∧ http_handle "DELETE /points HTTP/1.1\r\n\r\n" true true
      = { measurement_active := true
          body := "\x7b\"error\": \"unknown command\"\x7d" } := by
  refine ⟨?_, ?_, ?_, ?_⟩
  · exact (C8_http_dispatch "POST /start HTTP/1.1\r\n\r\n" false true).2.1
      (by decide) (by decide)
  · exact (C8_http_dispatch "POST /stop HTTP/1.1\r\n\r\n" true true).2.2.1
      (by decide) (by decide) (by decide)
  · have h := (C8_http_dispatch "GET /status HTTP/1.1\r\n\r\n" true false).1
      (by decide)
    rw [h]
    rfl
  · exact (C8_http_dispatch "DELETE /points HTTP/1.1\r\n\r\n" true true).2.2.2.1
      (by decide) (by decide) (by decide)

/-- isdigit on an ASCII character, as consumed by atoi. -/
def isDigitChar (c : Char) : Bool :=
  decide ('0' ≤ c) && decide (c ≤ '9')

/-- Numeric value of an ASCII digit. -/
def digitVal (c : Char) : Nat :=
  c.toNat - '0'.toNat

/-- The digit-consuming loop of atoi: accumulate leading digits, stop at the
first non-digit. -/
def atoiDigits : List Char → Nat → Nat
  | [], acc => acc
  | c :: cs, acc =>
      if isDigitChar c then atoiDigits cs (acc * 10 + digitVal c) else acc

/-- isspace on the six C whitespace characters. -/
def isSpaceChar (c : Char) : Bool :=
  c == ' ' || c == '\t' || c == '\n' || c == '\x0b' || c == '\x0c' || c == '\r'

/-- C atoi on a character list: skip whitespace, honour one optional sign,
then read leading digits; anything else yields 0. -/
def atoiList : List Char → Int
  | [] => 0
  | c :: cs =>
      if isSpaceChar c then atoiList cs
      else if c == '-' then -(atoiDigits cs 0 : Int)
      else if c == '+' then (atoiDigits cs 0 : Int)
      else (atoiDigits (c :: cs) 0 : Int)

/-- C atoi on a string. -/
def atoi (s : String) : Int :=
  atoiList s.data

/-- The use_threading branch of load_config (main.c lines 196-200):
strncmp(line, "use_threading=", 13) compares only the first 13 characters,
i.e. the prefix "use_threading" without the equals sign, and on a match the
flag is assigned atoi(line + 13) — the conversion starts at offset 13, the
position of the '=' character itself. -/
def use_threading_of_line (line : String) : Option Int :=
  if leadsWith "use_threading".data line.data then
    some (atoi (String.mk (line.data.drop 13)))
  else none

theorem leadsWith_self_append (p : List Char) :
    ∀ l, leadsWith p (p ++ l) = true := by
  induction p with
  | nil => intro l; rfl
  | cons a as ih =>
    intro l
    simp only [List.cons_append, leadsWith, Bool.and_eq_true]
    exact ⟨by simp, ih l⟩

/-- C9: every config line of the form "use_threading=" followed by anything
matches the 13-character strncmp, and the value assigned to use_threading is
atoi of the tail starting at the '=' sign, which is 0 — threading is
disabled no matter what digit follows the equals sign. -/
theorem C9_use_threading_zero (rest : String) :
    use_threading_of_line ("use_threading=" ++ rest) = some 0 := by
  have hdata : ("use_threading=" ++ rest).data
      = "use_threading".data ++ ('=' :: rest.data) := by
    rw [String.data_append]
    have hsplit : "use_threading=".data = "use_threading".data ++ ['='] := rfl
    rw [hsplit, List.append_assoc]
    rfl
  have hlen : "use_threading".data.length = 13 := rfl
  have hdrop := List.drop_left "use_threading".data ('=' :: rest.data)
  rw [hlen] at hdrop
  rw [use_threading_of_line, hdata, if_pos (leadsWith_self_append _ _), hdrop]
  rfl
